import Mathlib

/-!
Verification of the data-loading and view-building logic of
`src/visitmonitor.py`, a single-file Streamlit dealer-visit dashboard.

The loader (`load_data`, lines 19-73) and the filter/aggregation pipeline of
`main` (lines 80-170) are shallowly embedded as pure Lean functions:

* pandas DataFrames become lists of typed `VisitRecord`s (plus a flag for
  the column-less `pd.DataFrame()` the error path returns);
* raw spreadsheet rows become association lists from column name to cell;
* pandas missing values (NaN) become `Option.none`;
* Python exceptions become `Except` values;
* timestamps become naturals (seconds), with `.dt.date` as division by
  86400.
-/

/- ### Raw layer: rename table, Yes/No coercion, issues splitting -/

/-- The column rename table of `df.rename(columns={...})`
(`src/visitmonitor.py` lines 50-56). -/
def renameMap : List (String × String) :=
  [("buy now", "buy_now"),
   ("dealer code", "dealer_code"),
   ("Hatla2ee link", "hatla2ee_link"),
   ("dubizzle link", "dubizzle_link"),
   ("showroom capacity", "showroom_capacity")]

/-- Renaming of one column name: renamed via `renameMap` when listed there,
passed through unchanged otherwise (pandas `DataFrame.rename` semantics). -/
def renameKey (k : String) : String :=
  match renameMap.lookup k with
  | some v => v
  | none => k

/-- Renaming applied to one raw row (column name → raw cell value). -/
def renameRow (row : List (String × String)) : List (String × String) :=
  row.map (fun kv => (renameKey kv.1, kv.2))

/-- The mapping dictionary of `df[col].map({'Yes': True, 'No': False})`
(lines 62-63). -/
def yesNoMap : List (String × Bool) := [("Yes", true), ("No", false)]

/-- `Series.map` through `yesNoMap` on one cell: values outside the
dictionary become NaN, modelled as `none`. -/
def coerceYesNo (s : String) : Option Bool := yesNoMap.lookup s

/-- Python `str.split(", ")`, specialised to the separator `", "` used at
line 66, over explicit character lists: scan left to right, splitting at
each non-overlapping occurrence of `", "`.  `"".split(", ")` is `[""]`. -/
def splitCommaSpace : List Char → List (List Char)
  | [] => [[]]
  | ',' :: ' ' :: rest => [] :: splitCommaSpace rest
  | c :: rest =>
    match splitCommaSpace rest with
    | [] => [[c]]
    | p :: ps => (c :: p) :: ps

/-- `df['issues'].str.split(', ')` on one cell: NaN propagates (pandas keeps
the undefined marker for non-string cells), a string is split on `", "`. -/
def splitIssues : Option String → Option (List String)
  | none => none
  | some s => some ((splitCommaSpace s.data).map String.mk)

/- ### Typed records and the load sequence -/

/-- One normalized visit row with the columns the dashboard logic reads.
The boolean columns hold `none` for a cell that was neither `"Yes"` nor
`"No"`; `issues_list` holds `none` for a NaN issues cell. -/
structure VisitRecord where
  submitted_datetime : Nat
  dealer : String
  dealer_code : String
  showroom : Option Bool
  swift : Option Bool
  lending : Option Bool
  buy_now : Option Bool
  issues_list : Option (List String)
deriving DecidableEq

/-- A pandas DataFrame as the dashboard sees it: either it carries the visit
columns (successful load), or it is the column-less `pd.DataFrame()` the
error path returns, on which any column access raises `KeyError`. -/
structure DataFrame where
  hasVisitColumns : Bool
  records : List VisitRecord
deriving DecidableEq

/-- `pd.DataFrame()` (line 73): no rows and, crucially, no columns. -/
def emptyDataFrame : DataFrame := ⟨false, []⟩

/-- Outcomes of the external effects inside `load_data`: the two credential
sources (lines 29 and 32-33), the whole authorize/open/worksheet/fetch
sequence (lines 35-44), and `pd.to_datetime` on one raw cell (line 59). -/
structure LoadEnv where
  credFile : Except String Unit
  credSecrets : Except String Unit
  fetch : Except String (List (List (String × String)))
  parseDatetime : String → Except String Nat

/-- The inner credential fallback (lines 27-33): the service-account file is
tried first; on any failure the secrets blob is used. -/
def getCredentials (env : LoadEnv) : Except String Unit :=
  match env.credFile with
  | Except.ok c => Except.ok c
  | Except.error _ => env.credSecrets

/-- `row[k]`: `KeyError` when the column is absent. -/
def lookupCol (row : List (String × String)) (k : String) :
    Except String String :=
  match row.lookup k with
  | some v => Except.ok v
  | none => Except.error k

/-- Building one normalized record from a renamed raw row, applying the
per-cell transformations of lines 59-66 (datetime parse, Yes/No coercion,
issues split). -/
def buildRecord (env : LoadEnv) (row : List (String × String)) :
    Except String VisitRecord := do
  let dtRaw ← lookupCol row "submitted_datetime"
  let dt ← env.parseDatetime dtRaw
  let sh ← lookupCol row "showroom"
  let sw ← lookupCol row "swift"
  let ld ← lookupCol row "lending"
  let bn ← lookupCol row "buy_now"
  let dealer ← lookupCol row "dealer"
  let code ← lookupCol row "dealer_code"
  let iss ← lookupCol row "issues"
  pure ⟨dt, dealer, code, coerceYesNo sh, coerceYesNo sw, coerceYesNo ld,
        coerceYesNo bn, splitIssues (some iss)⟩

/-- The body of the `try:` block of `load_data` (lines 21-68): credentials,
fetch, column renaming, then the per-row transformations, any of which may
fail. -/
def loadSequence (env : LoadEnv) : Except String DataFrame := do
  let _ ← getCredentials env
  let raw ← env.fetch
  let renamed := raw.map renameRow
  let recs ← renamed.mapM (buildRecord env)
  pure ⟨true, recs⟩

/-- `load_data` (lines 19-73): the whole sequence under one `except` handler
that shows an error message (modelled by the `Bool` component being `true`)
and returns the column-less empty DataFrame. -/
def load_data (env : LoadEnv) : DataFrame × Bool :=
  match loadSequence env with
  | Except.ok df => (df, false)
  | Except.error _ => (emptyDataFrame, true)

/- ### Filtering (lines 86-103) -/

/-- `.dt.date`: the calendar date of a timestamp in seconds. -/
def dtDate (t : Nat) : Nat := t / 86400

/-- The calendar date of one record's `submitted_datetime`. -/
def recordDate (r : VisitRecord) : Nat := dtDate r.submitted_datetime

/-- The date-range mask of lines 98-99 (inclusive on both ends). -/
def dateMask (rs : List VisitRecord) (s e : Nat) : List Bool :=
  rs.map (fun r => decide (s ≤ recordDate r) && decide (recordDate r ≤ e))

/-- `df['dealer'].isin(selected_dealers)` (line 101). -/
def dealerMask (rs : List VisitRecord) (sel : List String) : List Bool :=
  rs.map (fun r => decide (r.dealer ∈ sel))

/-- Elementwise `&` of two boolean masks. -/
def combineMask (m₁ m₂ : List Bool) : List Bool :=
  List.zipWith (· && ·) m₁ m₂

/-- Lines 98-101: the dealer mask is and-ed in only when the selection is
non-empty (`if selected_dealers:`). -/
def visitMask (rs : List VisitRecord) (s e : Nat) (sel : List String) :
    List Bool :=
  if sel.isEmpty then dateMask rs s e
  else combineMask (dateMask rs s e) (dealerMask rs sel)

/-- `df[mask]`: keep the records whose mask entry is `True`. -/
def applyMask : List VisitRecord → List Bool → List VisitRecord
  | [], _ => []
  | _ :: _, [] => []
  | r :: rs, b :: bs => if b then r :: applyMask rs bs else applyMask rs bs

/-- `filtered_df = df[mask]` (line 103). -/
def filtered_df (rs : List VisitRecord) (s e : Nat) (sel : List String) :
    List VisitRecord :=
  applyMask rs (visitMask rs s e sel)

/- ### Python string comparison, used by `groupby`'s key sort -/

/-- Lexicographic code-point comparison of character lists, with a proper
prefix sorting first: Python `str` comparison, which pandas uses when
`groupby` sorts its group keys. -/
def charLe : List Char → List Char → Bool
  | [], _ => true
  | _ :: _, [] => false
  | a :: as, b :: bs =>
    if a.toNat < b.toNat then true
    else if b.toNat < a.toNat then false
    else charLe as bs

/-- Python string comparison lifted to `String`. -/
def pyStrLe (a b : String) : Prop := charLe a.data b.data = true

instance : DecidableRel pyStrLe :=
  fun a b => instDecidableEqBool (charLe a.data b.data) true

/- ### Grouping and aggregation (lines 118-170) -/

/-- First-occurrence deduplication: the distinct values of a column in
encounter order (pandas `unique`). -/
def dedupFirst : List String → List String
  | [] => []
  | a :: l => a :: (dedupFirst l).filter (fun x => x != a)

/-- The distinct dealers of a record set in encounter order
(`df['dealer'].unique()` / the groups of `groupby('dealer')`). -/
def uniqueDealers (rs : List VisitRecord) : List String :=
  dedupFirst (rs.map (fun r => r.dealer))

/-- The group keys of `groupby('dealer')`: pandas sorts them ascending
(`sort=True` default), by Python string comparison. -/
def groupKeys (rs : List VisitRecord) : List String :=
  List.insertionSort pyStrLe (uniqueDealers rs)

/-- Group size: `agg({'submitted_datetime': 'count'})` (line 126). -/
def visitCount (rs : List VisitRecord) (d : String) : Nat :=
  rs.countP (fun r => r.dealer == d)

/-- `agg({'dealer_code': 'first'})` (line 127): the code of the dealer's
first record in row order. -/
def firstDealerCode (rs : List VisitRecord) (d : String) : String :=
  match rs.find? (fun r => r.dealer == d) with
  | some r => r.dealer_code
  | none => ""

/-- The `groupby('dealer').agg(...).reset_index()` table (lines 125-130):
one row (dealer, visits, code) per group key, in group-key order. -/
def dealerRows (rs : List VisitRecord) : List (String × Nat × String) :=
  (groupKeys rs).map (fun d => (d, visitCount rs d, firstDealerCode rs d))

/-- Descending comparison on the visit count, for
`sort_values('Number of Visits', ascending=False)` (line 131). -/
def countGE (a b : String × Nat × String) : Prop := b.2.1 ≤ a.2.1

instance : DecidableRel countGE := fun a b => Nat.decLe b.2.1 a.2.1

instance : IsTotal (String × Nat × String) countGE :=
  ⟨fun a b => Nat.le_total b.2.1 a.2.1⟩

instance : IsTrans (String × Nat × String) countGE :=
  ⟨fun _ _ _ h₁ h₂ => Nat.le_trans h₂ h₁⟩

/-- `dealer_summary` (lines 125-131).  The tie order of `sort_values` is
modelled as stable (NumPy's sort falls back to a stable insertion sort on
arrays this small). -/
def dealer_summary (rs : List VisitRecord) : List (String × Nat × String) :=
  List.insertionSort countGE (dealerRows rs)

/-- Lines 148-150: `dropna` over `issues_list` then `extend`, i.e. the
concatenation of the defined issues lists in row order. -/
def issueTags (rs : List VisitRecord) : List String :=
  (rs.filterMap (fun r => r.issues_list)).flatten

/-- Descending comparison on the tag count. -/
def issueCountGE (a b : String × Nat) : Prop := b.2 ≤ a.2

instance : DecidableRel issueCountGE := fun a b => Nat.decLe b.2 a.2

instance : IsTotal (String × Nat) issueCountGE :=
  ⟨fun a b => Nat.le_total b.2 a.2⟩

instance : IsTrans (String × Nat) issueCountGE :=
  ⟨fun _ _ _ h₁ h₂ => Nat.le_trans h₂ h₁⟩

/-- `pd.Series(issues_data).value_counts()` (line 152): one entry per
distinct tag with its occurrence count, sorted descending by count. -/
def issueFrequency (rs : List VisitRecord) : List (String × Nat) :=
  List.insertionSort issueCountGE
    ((dedupFirst (issueTags rs)).map (fun t => (t, (issueTags rs).count t)))

/-- `Series.mean()` on a Yes/No column: NaN cells are skipped (pandas
`skipna` default) in both numerator and denominator; the mean of a column
with no set cell is NaN (`none`). -/
def seriesMean (cells : List (Option Bool)) : Option ℚ :=
  if (cells.filterMap id).length = 0 then none
  else some
    (((cells.filterMap id).map (fun b => if b then (1 : ℚ) else 0)).sum /
      ((cells.filterMap id).length : ℚ))

/-- One bar of the "Percentage of 'Yes' Responses" chart (lines 166-169):
`filtered_df[col].mean() * 100`. -/
def yesPercentage (cells : List (Option Bool)) : Option ℚ :=
  (seriesMean cells).map (fun m => m * 100)

/- ### The view pipeline of `main` (lines 80-170) -/

/-- The derived tables and metrics `main` renders from `filtered_df`. -/
structure Views where
  total_visits : Nat
  unique_dealers : Nat
  dealerTable : List (String × Nat × String)
  issueCounts : List (String × Nat)
  yes_percentages : List (String × Option ℚ)

/-- The aggregates of lines 112-170, computed from the filtered set. -/
def buildViews (f : List VisitRecord) : Views :=
  { total_visits := f.length
    unique_dealers := (uniqueDealers f).length
    dealerTable := dealer_summary f
    issueCounts := issueFrequency f
    yes_percentages :=
      [("Showroom", yesPercentage (f.map (fun r => r.showroom))),
       ("Swift", yesPercentage (f.map (fun r => r.swift))),
       ("Lending", yesPercentage (f.map (fun r => r.lending))),
       ("Buy Now", yesPercentage (f.map (fun r => r.buy_now)))] }

/-- Column access plus filtering on the loaded frame: on the column-less
`pd.DataFrame()` of the error path the very first column access —
`df['submitted_datetime']` at line 88 (date-picker default) and again at
line 98 (the mask) — raises `KeyError`. -/
def applyFilters (df : DataFrame) (s e : Nat) (sel : List String) :
    Except String (List VisitRecord) :=
  if df.hasVisitColumns then Except.ok (filtered_df df.records s e sel)
  else Except.error "KeyError: submitted_datetime"

/-- The downstream view-building pipeline of `main`: filtering followed by
all the aggregates.  An exception in any step propagates (there is no
handler in `main`). -/
def viewPipeline (df : DataFrame) (s e : Nat) (sel : List String) :
    Except String Views := do
  let f ← applyFilters df s e sel
  pure (buildViews f)

/-- One render pass of `main` over an in-memory record set: the views are
derived from the filtered copy and the base set is still there, untouched,
afterwards. -/
def renderPass (rs : List VisitRecord) (s e : Nat) (sel : List String) :
    Views × List VisitRecord :=
  (buildViews (filtered_df rs s e sel), rs)

/- ### Properties of the Python string comparison -/

theorem charLe_cons_iff (a b : Char) (as bs : List Char) :
    charLe (a :: as) (b :: bs) = true ↔
      a.toNat < b.toNat ∨ (a.toNat = b.toNat ∧ charLe as bs = true) := by
  simp only [charLe]
  split_ifs with h₁ h₂
  · simp [h₁]
  · simp only [Bool.false_eq_true, false_iff]
    push_neg
    exact ⟨by omega, fun he => absurd he (by omega)⟩
  · have he : a.toNat = b.toNat := by omega
    simp [he]

theorem charLe_total : ∀ as bs : List Char,
    charLe as bs = true ∨ charLe bs as = true
  | [], _ => Or.inl rfl
  | _ :: _, [] => Or.inr rfl
  | a :: as, b :: bs => by
    rcases Nat.lt_trichotomy a.toNat b.toNat with h | h | h
    · exact Or.inl ((charLe_cons_iff a b as bs).mpr (Or.inl h))
    · rcases charLe_total as bs with ht | ht
      · exact Or.inl ((charLe_cons_iff a b as bs).mpr (Or.inr ⟨h, ht⟩))
      · exact Or.inr ((charLe_cons_iff b a bs as).mpr (Or.inr ⟨h.symm, ht⟩))
    · exact Or.inr ((charLe_cons_iff b a bs as).mpr (Or.inl h))

theorem charLe_trans : ∀ as bs cs : List Char,
    charLe as bs = true → charLe bs cs = true → charLe as cs = true
  | [], _, _, _, _ => rfl
  | _ :: _, [], _, h, _ => by simp [charLe] at h
  | _ :: _, _ :: _, [], _, h => by simp [charLe] at h
  | a :: as, b :: bs, c :: cs, h₁, h₂ => by
    rw [charLe_cons_iff] at h₁ h₂ ⊢
    rcases h₁ with h₁ | ⟨he₁, ht₁⟩
    · rcases h₂ with h₂ | ⟨he₂, ht₂⟩
      · exact Or.inl (h₁.trans h₂)
      · exact Or.inl (by omega)
    · rcases h₂ with h₂ | ⟨he₂, ht₂⟩
      · exact Or.inl (by omega)
      · exact Or.inr ⟨he₁.trans he₂, charLe_trans as bs cs ht₁ ht₂⟩

instance : IsTotal String pyStrLe :=
  ⟨fun a b => charLe_total a.data b.data⟩

instance : IsTrans String pyStrLe :=
  ⟨fun a b c => charLe_trans a.data b.data c.data⟩

/- ### First-occurrence deduplication lemmas -/

theorem mem_dedupFirst {x : String} : ∀ {l : List String},
    x ∈ dedupFirst l ↔ x ∈ l
  | [] => Iff.rfl
  | a :: l => by
    by_cases hxa : x = a
    · simp [dedupFirst, hxa]
    · simp [dedupFirst, List.mem_filter, hxa, mem_dedupFirst (l := l)]

theorem nodup_dedupFirst : ∀ l : List String, (dedupFirst l).Nodup
  | [] => List.nodup_nil
  | a :: l => by
    refine List.nodup_cons.mpr ⟨fun ha => ?_, ?_⟩
    · rcases List.mem_filter.mp ha with ⟨_, hne⟩
      simp at hne
    · exact (nodup_dedupFirst l).filter _

/- ### Mask application is list filtering -/

theorem applyMask_map (f : VisitRecord → Bool) :
    ∀ rs : List VisitRecord, applyMask rs (rs.map f) = rs.filter f
  | [] => rfl
  | r :: rs => by
    by_cases h : f r <;>
      simp [applyMask, List.filter_cons, h, applyMask_map f rs]

theorem combineMask_map (f g : VisitRecord → Bool) :
    ∀ rs : List VisitRecord,
      combineMask (rs.map f) (rs.map g) = rs.map (fun r => f r && g r)
  | [] => rfl
  | r :: rs => by
    simp [combineMask, combineMask_map f g rs]

theorem visitMask_eq_map (rs : List VisitRecord) (s e : Nat)
    (sel : List String) :
    visitMask rs s e sel = rs.map (fun r =>
      (decide (s ≤ recordDate r) && decide (recordDate r ≤ e)) &&
      (sel.isEmpty || decide (r.dealer ∈ sel))) := by
  unfold visitMask
  by_cases hsel : sel.isEmpty
  · simp [hsel, dateMask]
  · rw [if_neg hsel]
    unfold dateMask dealerMask
    rw [combineMask_map]
    simp [hsel]

/-- The combined filter of lines 98-103 as one `List.filter`: this is the
shared backbone of the claims about filtering. -/
theorem filtered_df_eq_filter (rs : List VisitRecord) (s e : Nat)
    (sel : List String) :
    filtered_df rs s e sel =
      rs.filter (fun r => decide (s ≤ recordDate r ∧ recordDate r ≤ e ∧
        (sel = [] ∨ r.dealer ∈ sel))) := by
  unfold filtered_df
  rw [visitMask_eq_map, applyMask_map]
  apply List.filter_congr
  intro r _
  by_cases hsel : sel.isEmpty
  · have hnil : sel = [] := by simpa [List.isEmpty_iff] using hsel
    subst hnil
    simp
  · have hne : ¬ sel = [] := by simpa [List.isEmpty_iff] using hsel
    simp [hsel, hne, Bool.and_assoc]

/- ### Counting: group sizes sum to the set size -/

theorem sum_if_eq_zero {x : String} : ∀ {keys : List String}, x ∉ keys →
    (keys.map (fun d => if x = d then 1 else 0)).sum = 0
  | [], _ => rfl
  | k :: keys, h => by
    have hx : ¬ x = k := fun he => h (he ▸ List.mem_cons_self k keys)
    have ht : x ∉ keys := fun hm => h (List.mem_cons_of_mem k hm)
    simp [hx, sum_if_eq_zero ht]

theorem sum_if_eq_one {x : String} : ∀ {keys : List String}, keys.Nodup →
    x ∈ keys → (keys.map (fun d => if x = d then 1 else 0)).sum = 1
  | [], _, h => absurd h (List.not_mem_nil x)
  | k :: keys, hnd, h => by
    rcases List.mem_cons.mp h with he | hm
    · subst he
      have hx : x ∉ keys := (List.nodup_cons.mp hnd).1
      simp [sum_if_eq_zero hx]
    · have hx : ¬ x = k := by
        rintro rfl
        exact (List.nodup_cons.mp hnd).1 hm
      simp [hx, sum_if_eq_one (List.nodup_cons.mp hnd).2 hm]

theorem sum_map_add_nat (f g : String → Nat) : ∀ keys : List String,
    (keys.map (fun d => f d + g d)).sum =
      (keys.map f).sum + (keys.map g).sum
  | [] => rfl
  | k :: keys => by
    simp [sum_map_add_nat f g keys]
    omega

theorem sum_visitCount (keys : List String) :
    ∀ rs : List VisitRecord, keys.Nodup →
      (∀ r ∈ rs, r.dealer ∈ keys) →
      (keys.map (fun d => visitCount rs d)).sum = rs.length
  | [], _, _ => by simp [visitCount]
  | r :: rs, hnd, hcov => by
    have hstep : (fun d => visitCount (r :: rs) d) =
        (fun d => visitCount rs d + if r.dealer = d then 1 else 0) := by
      funext d
      simp [visitCount, List.countP_cons]
    rw [hstep, sum_map_add_nat]
    rw [sum_visitCount keys rs hnd (fun r' h => hcov r' (List.mem_cons_of_mem r h))]
    rw [sum_if_eq_one hnd (hcov r (List.mem_cons_self r rs))]
    simp

/- ### Stability of the count sort -/

/-- Inserting `x` by a comparison `le` preserves a pairwise property `q`
that holds vacuously across strict `le`-inversions: the heart of the
stability argument for `insertionSort`. -/
theorem pairwise_orderedInsert {α : Type} (le : α → α → Prop)
    [DecidableRel le] (q : α → α → Prop)
    (hvac : ∀ x y, ¬ le x y → q y x) (x : α) :
    ∀ L : List α, L.Pairwise q → (∀ y ∈ L, q x y) →
      (L.orderedInsert le x).Pairwise q
  | [], _, _ => List.pairwise_singleton q x
  | y :: ys, hL, hx => by
    rcases List.pairwise_cons.mp hL with ⟨hy, hys⟩
    unfold List.orderedInsert
    split_ifs with hle
    · exact List.pairwise_cons.mpr ⟨hx, hL⟩
    · refine List.pairwise_cons.mpr ⟨?_, ?_⟩
      · intro z hz
        rcases (List.mem_orderedInsert le).mp hz with rfl | hz'
        · exact hvac z y hle
        · exact hy z hz'
      · exact pairwise_orderedInsert le q hvac x ys hys
          (fun z hz => hx z (List.mem_cons_of_mem y hz))

theorem pairwise_insertionSort {α : Type} (le : α → α → Prop)
    [DecidableRel le] (q : α → α → Prop)
    (hvac : ∀ x y, ¬ le x y → q y x) :
    ∀ l : List α, l.Pairwise q → (l.insertionSort le).Pairwise q
  | [], _ => List.Pairwise.nil
  | x :: xs, h => by
    rcases List.pairwise_cons.mp h with ⟨hx, hxs⟩
    unfold List.insertionSort
    refine pairwise_orderedInsert le q hvac x _
      (pairwise_insertionSort le q hvac xs hxs) ?_
    intro y hy
    exact hx y ((List.perm_insertionSort le xs).mem_iff.mp hy)

/- ### The indicator sum behind `Series.mean` on booleans -/

theorem sum_boolIndicator : ∀ vals : List Bool,
    (vals.map (fun b => if b then (1 : ℚ) else 0)).sum =
      (vals.countP id : ℚ)
  | [] => by simp
  | b :: bs => by
    cases b <;> simp [List.countP_cons, sum_boolIndicator bs]
    ring

/- ### Rename-table lemmas -/

theorem renameKey_passthrough {k : String}
    (hk : k ∉ renameMap.map Prod.fst) : renameKey k = k := by
  simp [renameMap] at hk
  obtain ⟨h₁, h₂, h₃, h₄, h₅⟩ := hk
  simp [renameKey, renameMap, List.lookup_cons, List.lookup_nil,
    beq_false_of_ne h₁, beq_false_of_ne h₂, beq_false_of_ne h₃,
    beq_false_of_ne h₄, beq_false_of_ne h₅]

theorem renameKey_not_source (k : String) :
    renameKey k ∉ renameMap.map Prod.fst := by
  by_cases hk : k ∈ renameMap.map Prod.fst
  · simp [renameMap] at hk
    rcases hk with h | h | h | h | h <;> subst h <;> decide
  · rw [renameKey_passthrough hk]
    exact hk

theorem renameKey_idem (k : String) : renameKey (renameKey k) = renameKey k :=
  renameKey_passthrough (renameKey_not_source k)

/- ### Claim theorems and witnesses -/

/-- C5: the loader's Yes/No coercion, applied to each cell of the four
boolean-coded columns (`showroom`, `swift`, `lending`, `buy_now`), maps the
literal `"Yes"` to `some true`, the literal `"No"` to `some false`, and any
other literal to `none` (the unset boolean): a trichotomy over all cell
values. -/
theorem coerceYesNo_trichotomy (s : String) :
    (s = "Yes" ∧ coerceYesNo s = some true) ∨
    (s = "No" ∧ coerceYesNo s = some false) ∨
    (s ≠ "Yes" ∧ s ≠ "No" ∧ coerceYesNo s = none) := by
  by_cases h₁ : s = "Yes"
  · exact Or.inl ⟨h₁, by rw [h₁]; decide⟩
  · by_cases h₂ : s = "No"
    · exact Or.inr (Or.inl ⟨h₂, by rw [h₂]; decide⟩)
    · refine Or.inr (Or.inr ⟨h₁, h₂, ?_⟩)
      simp [coerceYesNo, yesNoMap, List.lookup_cons, List.lookup_nil,
        beq_false_of_ne h₁, beq_false_of_ne h₂]

/-- C6 counterexample: an empty issues string does not yield the documented
undefined/empty marker — `"".split(", ")` is the one-element sequence
`[""]`, which is neither undefined (`none`) nor empty. -/
theorem splitIssues_empty_counterexample :
    splitIssues (some "") = some [""] ∧
    some ([""] : List String) ≠ none ∧ ([""] : List String) ≠ [] := by
  refine ⟨by decide, by simp, by simp⟩

/-- C6 (amended): `issues_list` splits the issues field on the delimiter
`", "`: `"noise, pricing"` yields the ordered sequence
`["noise", "pricing"]` and an absent (NaN) issues field yields the
undefined marker `none`; the empty string `""`, however, yields the defined
one-element sequence `[""]`, not an undefined/empty marker. -/
theorem splitIssues_spec :
    splitIssues none = none ∧
    splitIssues (some "noise, pricing") = some ["noise", "pricing"] ∧
    splitIssues (some "") = some [""] :=
  ⟨rfl, by decide, by decide⟩

/-- C8: the rename table has exactly the five documented entries; renaming
is total and idempotent; the normalized keys are exactly the
renamed/passthrough keys; no raw (spaced) source name survives in a
normalized row; and every column outside the table passes through
unchanged. -/
theorem renameRow_spec :
    renameMap.length = 5 ∧
    renameKey "buy now" = "buy_now" ∧
    renameKey "dealer code" = "dealer_code" ∧
    renameKey "Hatla2ee link" = "hatla2ee_link" ∧
    renameKey "dubizzle link" = "dubizzle_link" ∧
    renameKey "showroom capacity" = "showroom_capacity" ∧
    (∀ k, k ∉ renameMap.map Prod.fst → renameKey k = k) ∧
    (∀ row : List (String × String),
      renameRow (renameRow row) = renameRow row) ∧
    (∀ row : List (String × String),
      (renameRow row).map Prod.fst = (row.map Prod.fst).map renameKey) ∧
    (∀ row : List (String × String), ∀ kv ∈ renameRow row,
      kv.1 ∉ renameMap.map Prod.fst) := by
  refine ⟨rfl, by decide, by decide, by decide, by decide, by decide,
    fun k hk => renameKey_passthrough hk, ?_, ?_, ?_⟩
  · intro row
    unfold renameRow
    rw [List.map_map]
    apply List.map_congr_left
    intro kv _
    simp [renameKey_idem]
  · intro row
    simp [renameRow, List.map_map]
  · intro row kv hkv
    rcases List.mem_map.mp hkv with ⟨kv', _, rfl⟩
    exact renameKey_not_source kv'.1

/-- C8 witness: a column name outside the table ("dealer") passes through
unchanged. -/
theorem renameRow_spec_witness : renameKey "dealer" = "dealer" :=
  renameRow_spec.2.2.2.2.2.2.1 "dealer" (by decide)

/-- C2: any failure anywhere in the load sequence (credentials, fetch,
renaming, datetime parsing, coercion, splitting) is caught at the top of
`load_data`: the caller is shown an error message (flag `true`) and the
empty record set is returned instead of a propagating exception. -/
theorem load_data_catches (env : LoadEnv) (e : String)
    (h : loadSequence env = Except.error e) :
    load_data env = (emptyDataFrame, true) := by
  simp [load_data, h]

/-- An environment in which both credential sources fail, as when no
service-account file and no secrets entry exist. -/
def failingEnv : LoadEnv :=
  { credFile := Except.error "FileNotFoundError"
    credSecrets := Except.error "KeyError: gcp_service_account"
    fetch := Except.ok []
    parseDatetime := fun _ => Except.error "ParserError" }

/-- C2 witness: with both credential sources failing, the sequence fails and
`load_data` reports the error and returns the empty record set. -/
theorem load_data_catches_witness :
    loadSequence failingEnv =
      Except.error "KeyError: gcp_service_account" ∧
    load_data failingEnv = (emptyDataFrame, true) :=
  ⟨rfl, load_data_catches failingEnv "KeyError: gcp_service_account" rfl⟩

/-- C1 (code-bug evidence): on the empty record set the program actually
produces — the column-less `pd.DataFrame()` of the load error path — the
downstream view pipeline does not tolerate emptiness: its first column
access raises `KeyError` instead of rendering zero counts and sentinel
percentages. -/
theorem viewPipeline_empty_raises (s e : Nat) (sel : List String) :
    viewPipeline emptyDataFrame s e sel =
      Except.error "KeyError: submitted_datetime" := rfl

/-- C3: the filtered set is exactly the subsequence of records whose
calendar date lies in the inclusive interval `[s, e]` and whose dealer
belongs to the selection when the selection is non-empty; an empty
selection applies no dealer filtering. -/
theorem filtered_df_spec (rs : List VisitRecord) (s e : Nat)
    (sel : List String) :
    filtered_df rs s e sel =
      rs.filter (fun r => decide (s ≤ recordDate r ∧ recordDate r ≤ e ∧
        (sel = [] ∨ r.dealer ∈ sel))) :=
  filtered_df_eq_filter rs s e sel

/-- C9: one render pass of `main` leaves the base record set unchanged;
filtering is a pure idempotent function of (record set, date interval,
dealer selection); and the filtered view is a subsequence of the base. -/
theorem renderPass_frame (rs : List VisitRecord) (s e : Nat)
    (sel : List String) :
    (renderPass rs s e sel).2 = rs ∧
    filtered_df (filtered_df rs s e sel) s e sel = filtered_df rs s e sel ∧
    (filtered_df rs s e sel).Sublist rs := by
  refine ⟨rfl, ?_, ?_⟩
  · rw [filtered_df_eq_filter, filtered_df_eq_filter, List.filter_filter]
    simp
  · rw [filtered_df_eq_filter]
    exact List.filter_sublist rs

/-- C10: whenever a boolean column of the filtered set has at least one set
(non-NaN) cell, its yes-percentage excludes unset cells from both numerator
and denominator: it is 100 times the number of `true` cells divided by the
number of set cells. -/
theorem yesPercentage_excludes_unset (cells : List (Option Bool))
    (h : 0 < (cells.filterMap id).length) :
    yesPercentage cells =
      some (100 * ((cells.filterMap id).countP id : ℚ) /
        ((cells.filterMap id).length : ℚ)) := by
  unfold yesPercentage seriesMean
  rw [if_neg (by omega)]
  rw [sum_boolIndicator]
  rw [Option.map_some']
  congr 1
  have hne : ((cells.filterMap id).length : ℚ) ≠ 0 := by
    exact_mod_cast Nat.pos_iff_ne_zero.mp h
  field_simp
  ring

/-- C10 witness: a column with cells [Yes, NaN, No, Yes] has two of three
set cells true. -/
theorem yesPercentage_excludes_unset_witness :
    0 < (([some true, none, some false, some true] :
      List (Option Bool)).filterMap id).length ∧
    yesPercentage [some true, none, some false, some true] =
      some (100 * ((([some true, none, some false, some true] :
          List (Option Bool)).filterMap id).countP id : ℚ) /
        ((([some true, none, some false, some true] :
          List (Option Bool)).filterMap id).length : ℚ)) :=
  ⟨by decide, yesPercentage_excludes_unset _ (by decide)⟩

/-- C4 (amended): `DealerSummary` has one row per distinct dealer of the
filtered set — (dealer name, visit count, dealer code of the dealer's first
record in encounter order) — sorted by visit count descending; its row
count is the number of distinct dealers and its visit counts sum to the
filtered set size.  Ties, however, keep the dealer-name-ascending order
produced by `groupby`'s key sort, not encounter-derived order. -/
theorem dealer_summary_spec (rs : List VisitRecord) :
    (dealer_summary rs).length = (uniqueDealers rs).length ∧
    (uniqueDealers rs).Nodup ∧
    ((dealer_summary rs).map (fun p => p.2.1)).sum = rs.length ∧
    List.Sorted countGE (dealer_summary rs) ∧
    List.Pairwise (fun a b => a.2.1 = b.2.1 → pyStrLe a.1 b.1)
      (dealer_summary rs) ∧
    ∀ p ∈ dealer_summary rs,
      p.1 ∈ uniqueDealers rs ∧ p.2.1 = visitCount rs p.1 ∧
      p.2.2 = firstDealerCode rs p.1 := by
  have hperm : List.Perm (dealer_summary rs) (dealerRows rs) :=
    List.perm_insertionSort countGE (dealerRows rs)
  have hkeys : List.Perm (groupKeys rs) (uniqueDealers rs) :=
    List.perm_insertionSort pyStrLe (uniqueDealers rs)
  refine ⟨?_, nodup_dedupFirst _, ?_, ?_, ?_, ?_⟩
  · rw [hperm.length_eq]
    unfold dealerRows
    rw [List.length_map, hkeys.length_eq]
  · rw [(hperm.map (fun p => p.2.1)).sum_eq]
    have h2 : (dealerRows rs).map (fun p => p.2.1) =
        (groupKeys rs).map (fun d => visitCount rs d) := by
      unfold dealerRows
      rw [List.map_map]
      rfl
    rw [h2, (hkeys.map (fun d => visitCount rs d)).sum_eq]
    exact sum_visitCount (uniqueDealers rs) rs (nodup_dedupFirst _)
      (fun r hr => mem_dedupFirst.mpr (List.mem_map_of_mem _ hr))
  · exact List.sorted_insertionSort countGE (dealerRows rs)
  · refine pairwise_insertionSort countGE _ ?_ _ ?_
    · intro x y hxy heq
      exact absurd (Nat.le_of_eq heq) hxy
    · have hsorted : List.Pairwise pyStrLe (groupKeys rs) :=
        List.sorted_insertionSort pyStrLe (uniqueDealers rs)
      exact hsorted.map _ (fun a b hab => fun _ => hab)
  · intro p hp
    rcases List.mem_map.mp (hperm.mem_iff.mp hp) with ⟨d, hd, rfl⟩
    exact ⟨hkeys.mem_iff.mp hd, rfl, rfl⟩

/-- A visit record for dealer "B", encountered first. -/
def recB : VisitRecord := ⟨0, "B", "B1", none, none, none, none, none⟩

/-- A visit record for dealer "A", encountered second. -/
def recA : VisitRecord := ⟨0, "A", "A1", none, none, none, none, none⟩

/-- C4 counterexample: with records for dealer "B" then dealer "A" (one
visit each, a tie), encounter order predicts the row for "B" first, but the
summary lists "A" first: `groupby` emits groups in dealer-name order and
the count sort keeps that order for ties. -/
theorem dealer_summary_counterexample :
    dealer_summary [recB, recA] = [("A", 1, "A1"), ("B", 1, "B1")] ∧
    dealer_summary [recB, recA] ≠ [("B", 1, "B1"), ("A", 1, "A1")] := by
  constructor
  · decide
  · decide

/-- C4 witness: the summary row for dealer "A" carries its visit count and
the dealer code of its first record. -/
theorem dealer_summary_spec_witness :
    ("A", 1, ("A1" : String)).1 ∈ uniqueDealers [recB, recA] ∧
    ("A", 1, ("A1" : String)).2.1 =
      visitCount [recB, recA] ("A", 1, ("A1" : String)).1 ∧
    ("A", 1, ("A1" : String)).2.2 =
      firstDealerCode [recB, recA] ("A", 1, ("A1" : String)).1 :=
  (dealer_summary_spec [recB, recA]).2.2.2.2.2 ("A", 1, "A1") (by decide)

/-- C7: `IssueFrequency` has exactly one entry per distinct issue tag
accumulated across the records' defined `issues_list`s, carrying that tag's
occurrence count, ordered descending by count; a record whose `issues_list`
is the undefined marker contributes no tags at all. -/
theorem issueFrequency_spec (rs : List VisitRecord) :
    List.Perm ((issueFrequency rs).map Prod.fst)
      (dedupFirst (issueTags rs)) ∧
    ((issueFrequency rs).map Prod.fst).Nodup ∧
    List.Sorted issueCountGE (issueFrequency rs) ∧
    (∀ p ∈ issueFrequency rs,
      p.1 ∈ issueTags rs ∧ p.2 = (issueTags rs).count p.1) ∧
    ∀ r : VisitRecord, r.issues_list = none →
      issueFrequency (r :: rs) = issueFrequency rs := by
  have hperm : List.Perm (issueFrequency rs)
      ((dedupFirst (issueTags rs)).map (fun t => (t, (issueTags rs).count t))) :=
    List.perm_insertionSort issueCountGE _
  have hfst : ((dedupFirst (issueTags rs)).map
        (fun t => (t, (issueTags rs).count t))).map Prod.fst =
      dedupFirst (issueTags rs) := by
    rw [List.map_map]
    exact List.map_id _
  refine ⟨?_, ?_, ?_, ?_, ?_⟩
  · rw [← hfst]
    exact hperm.map Prod.fst
  · exact ((hperm.map Prod.fst).nodup_iff).mpr
      (by rw [hfst]; exact nodup_dedupFirst _)
  · exact List.sorted_insertionSort issueCountGE _
  · intro p hp
    rcases List.mem_map.mp (hperm.mem_iff.mp hp) with ⟨t, ht, rfl⟩
    exact ⟨mem_dedupFirst.mp ht, rfl⟩
  · intro r hr
    unfold issueFrequency issueTags
    rw [List.filterMap_cons_none hr]

/-- A visit record whose issues cell was "noise, pricing, noise". -/
def recIssues : VisitRecord :=
  ⟨0, "C", "C1", none, none, none, none, some ["noise", "pricing", "noise"]⟩

/-- C7 witness: in a one-record set with tags [noise, pricing, noise], the
entry for "noise" carries its occurrence count 2. -/
theorem issueFrequency_spec_witness :
    ("noise", 2).1 ∈ issueTags [recIssues] ∧
    ("noise", 2).2 = (issueTags [recIssues]).count ("noise", 2).1 :=
  (issueFrequency_spec [recIssues]).2.2.2.1 ("noise", 2) (by decide)
